import Mathlib

/-!
Verification of the document model and controller of the PyQt text editor
(`src/text_editor.py`).  The GUI widgets (window, menus, toolbars, file
pickers, message boxes) are external collaborators; we embed the state they
carry for the controller (editor text, window title, status message) and
record error dialogs as a list.  The filesystem is embedded as a map from
paths to optional contents together with a writability predicate; file
contents are Lean strings, standing for the file bytes decoded as UTF-8.
Python exceptions become explicit `Except` values: `OSError` is `ioError`,
`ValueError` is `valueError` with its message.
-/

/-- Error raised by a model operation: `ioError` embeds Python's `OSError`
(its OS-supplied message is environmental and not modelled), `valueError`
embeds Python's `ValueError` with its message. -/
inductive ModelError where
  | ioError : ModelError
  | valueError (msg : String) : ModelError
deriving DecidableEq, Repr

/-- Filesystem state: `files` maps a path to its content when the file
exists and is readable (`none` means `open(path, "r")` raises `OSError`);
`writable p = false` means `open(p, "w")` raises `OSError`. -/
structure Disk where
  files : String → Option String
  writable : String → Bool

/-- Reading a file: returns its content, or `none` for an `OSError`. -/
def Disk.readFile (d : Disk) (path : String) : Option String :=
  d.files path

/-- Writing a file: replaces the content at `path`, or `none` for an
`OSError` when the destination is not writable (in which case the disk is
untouched). -/
def Disk.writeFile (d : Disk) (path text : String) : Option Disk :=
  if d.writable path then
    some { d with files := fun q => if q = path then some text else d.files q }
  else
    none

/-- State of `TextDocumentModel` (`src/text_editor.py` lines 16-58):
`_file_path` and `_content`. -/
structure TextDocumentModel where
  file_path : Option String
  content : String
deriving DecidableEq, Repr

/-- Initial model state from `TextDocumentModel.__init__`. -/
def TextDocumentModel.init : TextDocumentModel :=
  { file_path := none, content := "" }

/-- Embeds `TextDocumentModel.load_from_disk` (lines 43-48): open the file
for reading (an unreadable file raises `OSError`, leaving the model
untouched); on success assign `_content`, then `_file_path`, and return
the new content. -/
def TextDocumentModel.load_from_disk (m : TextDocumentModel) (d : Disk)
    (path : String) : TextDocumentModel × Except ModelError String :=
  match d.readFile path with
  | none => (m, Except.error ModelError.ioError)
  | some text => ({ file_path := some path, content := text }, Except.ok text)

/-- Embeds `TextDocumentModel.save_to_disk` (lines 50-58): if `path` is
given, first assign it to `_file_path`; if `_file_path` is still `None`,
raise `ValueError("File path is not set.")`; otherwise write `_content` to
`_file_path` (an unwritable destination raises `OSError`).  The returned
model reflects the mutations performed before the exception; the disk is
returned only on success, since a failed write leaves it untouched. -/
def TextDocumentModel.save_to_disk (m : TextDocumentModel) (d : Disk)
    (path : Option String) : TextDocumentModel × Except ModelError (Disk × String) :=
  let m1 := match path with
    | some p => { m with file_path := some p }
    | none => m
  match m1.file_path with
  | none => (m1, Except.error (ModelError.valueError "File path is not set."))
  | some fp =>
    match d.writeFile fp m1.content with
    | none => (m1, Except.error ModelError.ioError)
    | some d1 => (m1, Except.ok (d1, fp))

/-- View-visible state the controller manipulates: the text widget's plain
text, the window title and the status-bar message. -/
structure ViewState where
  text_edit : String
  window_title : String
  status_message : String
deriving DecidableEq, Repr

/-- Record of a modal error dialog (`QMessageBox.critical`): its title and
the fixed part of its message (the appended exception text is
environmental). -/
structure ErrorDialog where
  title : String
  caption : String
deriving DecidableEq, Repr

/-- Dialog shown by `TextEditorController.open_file` on failure. -/
def openErrorDialog : ErrorDialog :=
  { title := "Open File", caption := "Could not open file" }

/-- Dialog shown by `TextEditorController.save_file` and
`TextEditorController.save_file_as` on failure. -/
def saveErrorDialog : ErrorDialog :=
  { title := "Save File", caption := "Could not save file" }

/-- Combined application state seen by the controller: the document model,
the view state, and the error dialogs shown so far (most recent first). -/
structure AppState where
  model : TextDocumentModel
  view : ViewState
  dialogs : List ErrorDialog
deriving DecidableEq, Repr

/-- Application state right after startup: empty model, empty editor,
default title, status bar "Ready". -/
def AppState.init : AppState :=
  { model := TextDocumentModel.init,
    view := { text_edit := "", window_title := "PyQt Text Editor",
              status_message := "Ready" },
    dialogs := [] }

/-- Embeds `TextEditorController.new_file` (lines 207-213): reset the
model's path and content, clear the editor, show "New document" in the
status bar, reset the window title.  Total: no error path. -/
def TextEditorController.new_file (s : AppState) : AppState :=
  { model := { file_path := none, content := "" },
    view := { text_edit := "", window_title := "PyQt Text Editor",
              status_message := "New document" },
    dialogs := s.dialogs }

/-- Embeds `TextEditorController.open_file` (lines 215-232).  `picked` is
the file-picker result ("" when the user cancelled).  The handler catches
`OSError` only; the result is `none` if an uncaught exception escapes the
handler. -/
def TextEditorController.open_file (s : AppState) (d : Disk) (picked : String) :
    Option AppState :=
  if picked = "" then
    some s
  else
    match s.model.load_from_disk d picked with
    | (m, Except.error ModelError.ioError) =>
        some { s with model := m, dialogs := openErrorDialog :: s.dialogs }
    | (_, Except.error (ModelError.valueError _)) => none
    | (m, Except.ok content) =>
        some { model := m,
               view := { text_edit := content,
                         window_title := "PyQt Text Editor - " ++ picked,
                         status_message := "Opened: " ++ picked },
               dialogs := s.dialogs }

/-- Embeds `TextEditorController.save_file_as` (lines 247-264).  `picked`
is the save-dialog result ("" when cancelled).  Pulls the view text into
the model before saving; catches `OSError` only (`none` marks an uncaught
exception). -/
def TextEditorController.save_file_as (s : AppState) (d : Disk) (picked : String) :
    Option (AppState × Disk) :=
  if picked = "" then
    some (s, d)
  else
    let m0 := { s.model with content := s.view.text_edit }
    match m0.save_to_disk d (some picked) with
    | (m, Except.error ModelError.ioError) =>
        some ({ s with model := m, dialogs := saveErrorDialog :: s.dialogs }, d)
    | (_, Except.error (ModelError.valueError _)) => none
    | (m, Except.ok (d1, used)) =>
        some ({ model := m,
                view := { s.view with
                          window_title := "PyQt Text Editor - " ++ used,
                          status_message := "Saved: " ++ used },
                dialogs := s.dialogs }, d1)

/-- Embeds `TextEditorController.save_file` (lines 234-245): with no path
set it delegates to `save_file_as` (whose picker result is `picked`);
otherwise it pulls the view text into the model and saves, catching both
`OSError` and `ValueError`. -/
def TextEditorController.save_file (s : AppState) (d : Disk) (picked : String) :
    Option (AppState × Disk) :=
  match s.model.file_path with
  | none => TextEditorController.save_file_as s d picked
  | some _ =>
    let m0 := { s.model with content := s.view.text_edit }
    match m0.save_to_disk d none with
    | (m, Except.error _) =>
        some ({ s with model := m, dialogs := saveErrorDialog :: s.dialogs }, d)
    | (m, Except.ok (d1, used)) =>
        let v1 := { s.view with status_message := "Saved: " ++ used }
        some ({ s with model := m, view := v1 }, d1)

/-- Concrete disk holding a single readable file `a.txt` with content
"hello"; every path is writable. -/
def diskA : Disk :=
  { files := fun p => if p = "a.txt" then some "hello" else none,
    writable := fun _ => true }

/-- Concrete disk on which every read and every write fails. -/
def diskRO : Disk :=
  { files := fun _ => none,
    writable := fun _ => false }

/-- C1: loading a readable file sets the content to the file's text, sets
the path, and returns that content. -/
theorem load_from_disk_spec (m : TextDocumentModel) (d : Disk) (path text : String)
    (h : d.files path = some text) :
    m.load_from_disk d path =
      ({ file_path := some path, content := text }, Except.ok text) := by
  simp [TextDocumentModel.load_from_disk, Disk.readFile, h]

/-- Witness for C1 on the concrete disk `diskA` and file `a.txt`. -/
theorem load_from_disk_spec_witness :
    diskA.files "a.txt" = some "hello" ∧
    TextDocumentModel.init.load_from_disk diskA "a.txt" =
      ({ file_path := some "a.txt", content := "hello" }, Except.ok "hello") :=
  ⟨by decide, load_from_disk_spec TextDocumentModel.init diskA "a.txt" "hello" (by decide)⟩

/-- Success value of an embedded fallible operation, when there is one. -/
def successOf {ε α : Type} : Except ε α → Option α
  | Except.ok a => some a
  | Except.error _ => none

/-- C2: saving with an explicit writable path adopts the path as
`file_path`, writes exactly the current content to that path, and returns
the path used. -/
theorem save_to_disk_explicit (m : TextDocumentModel) (d : Disk) (p : String)
    (h : d.writable p = true) :
    (m.save_to_disk d (some p)).1 = { m with file_path := some p } ∧
    (successOf (m.save_to_disk d (some p)).2).map Prod.snd = some p ∧
    (successOf (m.save_to_disk d (some p)).2).map (fun x => x.1.files p) =
      some (some m.content) := by
  simp [TextDocumentModel.save_to_disk, Disk.writeFile, h, successOf]

/-- Witness for C2 on the concrete disk `diskA` and path `b.txt`. -/
theorem save_to_disk_explicit_witness :
    diskA.writable "b.txt" = true ∧
    ((TextDocumentModel.init.save_to_disk diskA (some "b.txt")).1 =
        { TextDocumentModel.init with file_path := some "b.txt" } ∧
      (successOf (TextDocumentModel.init.save_to_disk diskA (some "b.txt")).2).map
        Prod.snd = some "b.txt" ∧
      (successOf (TextDocumentModel.init.save_to_disk diskA (some "b.txt")).2).map
        (fun x => x.1.files "b.txt") = some (some TextDocumentModel.init.content)) :=
  ⟨rfl, save_to_disk_explicit TextDocumentModel.init diskA "b.txt" rfl⟩

/-- C3: saving with no explicit path while `file_path` is unset raises the
precondition error `ValueError("File path is not set.")` and leaves the
model unchanged; no disk is produced, i.e. no write is performed. -/
theorem save_to_disk_no_path (m : TextDocumentModel) (d : Disk)
    (h : m.file_path = none) :
    m.save_to_disk d none =
      (m, Except.error (ModelError.valueError "File path is not set.")) := by
  simp [TextDocumentModel.save_to_disk, h]

/-- Witness for C3 on the initial model. -/
theorem save_to_disk_no_path_witness :
    TextDocumentModel.init.file_path = none ∧
    TextDocumentModel.init.save_to_disk diskA none =
      (TextDocumentModel.init,
        Except.error (ModelError.valueError "File path is not set.")) :=
  ⟨rfl, save_to_disk_no_path TextDocumentModel.init diskA rfl⟩

/-- C4: loading a readable, writable file and immediately saving to the
same path with the content unmodified succeeds and leaves the whole disk
map, in particular that file's content, unchanged. -/
theorem load_then_save_roundtrip (m : TextDocumentModel) (d : Disk)
    (p text : String) (hr : d.files p = some text) (hw : d.writable p = true) :
    (successOf ((m.load_from_disk d p).1.save_to_disk d (some p)).2).map
      (fun x => x.1.files) = some d.files := by
  have hd : (fun q => if q = p then some text else d.files q) = d.files := by
    funext q
    by_cases hq : q = p
    · simp [hq, hr]
    · simp [hq]
  simp [TextDocumentModel.load_from_disk, Disk.readFile, hr,
        TextDocumentModel.save_to_disk, Disk.writeFile, hw, successOf, hd]

/-- Witness for C4 on the concrete disk `diskA` and file `a.txt`. -/
theorem load_then_save_roundtrip_witness :
    diskA.files "a.txt" = some "hello" ∧ diskA.writable "a.txt" = true ∧
    (successOf ((TextDocumentModel.init.load_from_disk diskA
        "a.txt").1.save_to_disk diskA (some "a.txt")).2).map
      (fun x => x.1.files) = some diskA.files :=
  ⟨by decide, rfl,
    load_then_save_roundtrip TextDocumentModel.init diskA "a.txt" "hello"
      (by decide) rfl⟩

/-- C5: when opening fails with an I/O error (the chosen file is
unreadable), the controller pushes the open-error dialog and everything
else — in particular the model's `file_path` and `content`, and the view —
is left exactly as before. -/
theorem open_file_io_failure (s : AppState) (d : Disk) (p : String)
    (hp : ¬ p = "") (h : d.files p = none) :
    TextEditorController.open_file s d p =
      some { s with dialogs := openErrorDialog :: s.dialogs } := by
  simp [TextEditorController.open_file, TextDocumentModel.load_from_disk,
        Disk.readFile, hp, h]

/-- Witness for C5: opening a missing file on the concrete disk `diskRO`. -/
theorem open_file_io_failure_witness :
    ¬ "missing.txt" = "" ∧ diskRO.files "missing.txt" = none ∧
    TextEditorController.open_file AppState.init diskRO "missing.txt" =
      some { AppState.init with dialogs := openErrorDialog :: AppState.init.dialogs } :=
  ⟨by decide, rfl,
    open_file_io_failure AppState.init diskRO "missing.txt" (by decide) rfl⟩

/-- C6: the new-document operation resets the model's path to unset and its
content to empty from any prior state, and shows no error dialog; as a
total function `AppState → AppState` it has no error path. -/
theorem new_file_resets (s : AppState) :
    (TextEditorController.new_file s).model =
      { file_path := none, content := "" } ∧
    (TextEditorController.new_file s).dialogs = s.dialogs :=
  ⟨rfl, rfl⟩

/-- Helper for the controller totality result: `save_file_as` always
returns a state (the only exception its handler does not catch,
`ValueError`, cannot arise because an explicit path is passed), and its
dialogs either stay unchanged or gain exactly the save-error dialog. -/
theorem save_file_as_handled (s : AppState) (d : Disk) (p : String) :
    ∃ t, TextEditorController.save_file_as s d p = some t ∧
      (t.1.dialogs = s.dialogs ∨ t.1.dialogs = saveErrorDialog :: s.dialogs) := by
  by_cases hp : p = ""
  · exact ⟨(s, d), by simp [TextEditorController.save_file_as, hp], Or.inl rfl⟩
  · cases hw : d.writeFile p s.view.text_edit with
    | none =>
      have he : TextEditorController.save_file_as s d p =
          some ({ s with
                    model := { file_path := some p, content := s.view.text_edit },
                    dialogs := saveErrorDialog :: s.dialogs }, d) := by
        simp [TextEditorController.save_file_as, hp,
              TextDocumentModel.save_to_disk, hw]
      exact ⟨_, he, Or.inr rfl⟩
    | some d1 =>
      have he : TextEditorController.save_file_as s d p =
          some ({ model := { file_path := some p, content := s.view.text_edit },
                  view := { s.view with
                              window_title := "PyQt Text Editor - " ++ p,
                              status_message := "Saved: " ++ p },
                  dialogs := s.dialogs }, d1) := by
        simp [TextEditorController.save_file_as, hp,
              TextDocumentModel.save_to_disk, hw]
      exact ⟨_, he, Or.inl rfl⟩

/-- C7: none of the three file handlers ever lets a model failure escape
(each always returns a state — no crash), and any failure is surfaced as
exactly one modal error dialog pushed onto the dialog list; on success or
cancel the dialog list is unchanged. -/
theorem controller_failures_caught (s : AppState) (d : Disk) (po ps pa : String) :
    (∃ s1, TextEditorController.open_file s d po = some s1 ∧
      (s1.dialogs = s.dialogs ∨ s1.dialogs = openErrorDialog :: s.dialogs)) ∧
    (∃ t1, TextEditorController.save_file s d ps = some t1 ∧
      (t1.1.dialogs = s.dialogs ∨ t1.1.dialogs = saveErrorDialog :: s.dialogs)) ∧
    (∃ t2, TextEditorController.save_file_as s d pa = some t2 ∧
      (t2.1.dialogs = s.dialogs ∨ t2.1.dialogs = saveErrorDialog :: s.dialogs)) := by
  refine ⟨?_, ?_, save_file_as_handled s d pa⟩
  · by_cases hp : po = ""
    · exact ⟨s, by simp [TextEditorController.open_file, hp], Or.inl rfl⟩
    · cases hr : d.files po with
      | none =>
        have he : TextEditorController.open_file s d po =
            some { s with dialogs := openErrorDialog :: s.dialogs } := by
          simp [TextEditorController.open_file, hp,
                TextDocumentModel.load_from_disk, Disk.readFile, hr]
        exact ⟨_, he, Or.inr rfl⟩
      | some text =>
        have he : TextEditorController.open_file s d po =
            some { model := { file_path := some po, content := text },
                   view := { text_edit := text,
                             window_title := "PyQt Text Editor - " ++ po,
                             status_message := "Opened: " ++ po },
                   dialogs := s.dialogs } := by
          simp [TextEditorController.open_file, hp,
                TextDocumentModel.load_from_disk, Disk.readFile, hr]
        exact ⟨_, he, Or.inl rfl⟩
  · cases hfp : s.model.file_path with
    | none =>
      have h := save_file_as_handled s d ps
      simpa [TextEditorController.save_file, hfp] using h
    | some fp =>
      cases hw : d.writeFile fp s.view.text_edit with
      | none =>
        have he : TextEditorController.save_file s d ps =
            some ({ s with
                      model := { s.model with content := s.view.text_edit },
                      dialogs := saveErrorDialog :: s.dialogs }, d) := by
          simp [TextEditorController.save_file, hfp,
                TextDocumentModel.save_to_disk, hw]
        exact ⟨_, he, Or.inr rfl⟩
      | some d1 =>
        have he : TextEditorController.save_file s d ps =
            some ({ s with
                      model := { s.model with content := s.view.text_edit },
                      view := { s.view with
                                  status_message := "Saved: " ++ fp } }, d1) := by
          simp [TextEditorController.save_file, hfp,
                TextDocumentModel.save_to_disk, hw]
        exact ⟨_, he, Or.inl rfl⟩

/-- Application state after opening `a.txt` on the concrete disk `diskA`
from the startup state. -/
def scenario_opened : AppState :=
  (TextEditorController.open_file AppState.init diskA "a.txt").getD AppState.init

/-- Application state after the user edits the text widget to read
"hello world". -/
def scenario_edited : AppState :=
  { scenario_opened with
    view := { scenario_opened.view with text_edit := "hello world" } }

/-- Result of pressing Save (no explicit path) after the edit. -/
def scenario_saved : Option (AppState × Disk) :=
  TextEditorController.save_file scenario_edited diskA ""

/-- C8: on a disk where `a.txt` contains "hello", opening `a.txt` makes the
model content "hello"; editing to "hello world" and saving with no
explicit path makes `a.txt` contain "hello world". -/
theorem scenario_hello_roundtrip :
    scenario_opened.model.content = "hello" ∧
    scenario_saved.map (fun t => t.2.files "a.txt") = some (some "hello world") := by
  constructor
  · rfl
  · rfl

/-- C9: when saving with an explicit path fails with an I/O error, the
model's `file_path` has nevertheless been set to that path: adoption
happens before the write and is not rolled back. -/
theorem save_to_disk_adopts_path (m : TextDocumentModel) (d : Disk) (p : String)
    (_h : (m.save_to_disk d (some p)).2 = Except.error ModelError.ioError) :
    (m.save_to_disk d (some p)).1.file_path = some p := by
  cases hw : d.writeFile p m.content with
  | none => simp [TextDocumentModel.save_to_disk, hw]
  | some d1 => simp [TextDocumentModel.save_to_disk, hw]

/-- Witness for C9: a save to the read-only disk `diskRO` fails with an
I/O error yet adopts the path. -/
theorem save_to_disk_adopts_path_witness :
    (TextDocumentModel.init.save_to_disk diskRO (some "b.txt")).2 =
      Except.error ModelError.ioError ∧
    (TextDocumentModel.init.save_to_disk diskRO (some "b.txt")).1.file_path =
      some "b.txt" :=
  ⟨rfl, save_to_disk_adopts_path TextDocumentModel.init diskRO "b.txt" rfl⟩

/-- C10: saving with no explicit path never changes the model: the returned
model is the input model, and when the write succeeds the path used is the
pre-existing `file_path` (otherwise there is no success value). -/
theorem save_to_disk_none_frame (m : TextDocumentModel) (d : Disk) :
    (m.save_to_disk d none).1 = m ∧
    ((successOf (m.save_to_disk d none).2).map Prod.snd = none ∨
     (successOf (m.save_to_disk d none).2).map Prod.snd = m.file_path) := by
  cases hfp : m.file_path with
  | none =>
    refine ⟨?_, Or.inl ?_⟩ <;>
      simp [TextDocumentModel.save_to_disk, hfp, successOf]
  | some fp =>
    cases hw : d.writeFile fp m.content with
    | none =>
      refine ⟨?_, Or.inl ?_⟩ <;>
        simp [TextDocumentModel.save_to_disk, hfp, hw, successOf]
    | some d1 =>
      refine ⟨?_, Or.inr ?_⟩ <;>
        simp [TextDocumentModel.save_to_disk, hfp, hw, successOf]
